import Mathlib

/-!
Verification of the SpeakEasy Tasks core (voice-input interpretation,
task prioritization and reminder scheduling) against its specification.

This file shallowly embeds the relevant TypeScript sources:

* `src/lib/types.ts`          — the data model (`Task`, `CalendarEvent`, `Reminder`,
                                `ParsedVoiceInput`);
* `src/lib/prioritization.ts` — `TaskPrioritizationService` (`prioritizeTasks`,
                                `calculatePriorityScore`, `determineUrgencyLevel`,
                                `estimateTaskDuration`, `getTaskSchedulingSuggestions`);
* `src/lib/reminders.ts`      — `ContextualReminderService` (`createTaskReminders`,
                                `createEventReminders`, `triggerReminder`, `checkReminders`);
* `src/lib/openai.ts`         — `parseVoiceInput`;
* `src/components/VoiceInput.tsx` (and the identical `HomePage.handleRecordingComplete`)
                              — construction of a `CalendarEvent` from a parsed intent;
* `src/unnamed/part_011`      — `AITaskPrioritizer.prioritizeTasks` and its
                                `fallbackPrioritization`;
* `src/unnamed/part_007`      — the per-task merge step of
                                `TaskPrioritizationService.prioritizeTasks`.

Conventions of the embedding:

* Instants are `Int` milliseconds since the epoch (JavaScript `Date.getTime()`).
  JavaScript computes `hoursUntilDue = (due - now) / 3600000` as a float and compares
  it against constants; since division by the positive constant is order-preserving
  and exact on the rationals, every such comparison `hoursUntilDue < c` is embedded
  as the exact integer comparison `due - now < c * 3600000`, and likewise for days.
* `PrioritizedTask.timeToDeadline` (hours, float) is carried as the exact
  `timeToDeadlineMs : Option Int` (milliseconds); JavaScript truthiness of the hours
  value (`undefined`/`0` falsy) becomes `none`/`some 0`.
* JavaScript string fields that can be `undefined` or empty (both falsy) are embedded
  as `String` with `""` playing the falsy role; optional dates are `Option Int`.
* `Array.prototype.sort` with a numeric comparator is (per ES2019) a stable sort;
  it is embedded as `List.mergeSort` with the boolean relation `cmp a b ≤ 0`.
* Fallible effectful inputs (the AI extractor / scorer responses) are explicit
  parameters of type `Option _`, where `none` is the thrown-error path
  (no content, malformed JSON, non-array shape).
-/

namespace SpeakEasy

/-! ## Data model (src/lib/types.ts) -/

/- Instants are plain `Int` milliseconds since the Unix epoch, as produced by
JavaScript `Date.getTime()` (no type alias, so that arithmetic automation sees
the `Int` structure directly). -/

/-- One hour in milliseconds (`60 * 60 * 1000`). -/
def hourMs : Int := 3600000

/-- One minute in milliseconds (`60 * 1000`). -/
def minuteMs : Int := 60000

/-- One day in milliseconds (`24 * 60 * 60 * 1000`). -/
def dayMs : Int := 86400000

/-- `'low' | 'medium' | 'high'` priority tier of a task. -/
inductive Priority
  | low
  | medium
  | high
deriving DecidableEq, Repr

/-- `Task` from src/lib/types.ts. -/
structure Task where
  id : String
  taskId : String
  userId : String
  title : String
  description : String
  isCompleted : Bool
  createdAt : Int
  dueDate : Option Int
  completedAt : Option Int
  priority : Priority
deriving DecidableEq, Repr

/-- `CalendarEvent` from src/lib/types.ts (`priority` kept as the raw string union,
it is never consumed by the core algorithms). -/
structure CalendarEvent where
  id : String
  eventId : String
  userId : String
  title : String
  startTime : Int
  endTime : Int
  location : Option String
  notes : Option String
  priority : Option String
deriving DecidableEq, Repr

/-! ## Priority scorer (src/lib/prioritization.ts) -/

/-- The `'low' | 'medium' | 'high' | 'critical'` urgency tier. -/
inductive Urgency
  | low
  | medium
  | high
  | critical
deriving DecidableEq, Repr

/-- The base-score `switch (task.priority)` of `calculatePriorityScore`
(src/lib/prioritization.ts lines 53-63): high=100, medium=50, low=25. -/
def priorityBase : Priority → Int
  | .high => 100
  | .medium => 50
  | .low => 25

/-- The due-date `if`/`else if` chain of `calculatePriorityScore`
(src/lib/prioritization.ts lines 70-82), as a function of `due - now` in ms:
overdue +200, else within 2 hours +150, else within 24 hours +75,
else within 72 hours +25, else +0. -/
def dueDateBand (msUntilDue : Int) : Int :=
  if msUntilDue < 0 then 200
  else if msUntilDue < 2 * hourMs then 150
  else if msUntilDue < 24 * hourMs then 75
  else if msUntilDue < 72 * hourMs then 25
  else 0

/-- The task-age boost of `calculatePriorityScore` (src/lib/prioritization.ts
lines 91-94): +10 when `taskAge`, in days, exceeds 7. -/
def ageBonus (task : Task) (currentTime : Int) : Int :=
  if currentTime - task.createdAt > 7 * dayMs then 10 else 0

/-- `TaskPrioritizationService.calculatePriorityScore`
(src/lib/prioritization.ts lines 49-97). The score is accumulated exactly in
source order: base by priority, then the single matching due-date band, then
`score = 0` if the task is completed, then the age bonus, then `Math.max(0, score)`. -/
def calculatePriorityScore (task : Task) (currentTime : Int) : Int :=
  let score1 := priorityBase task.priority
  let score2 :=
    match task.dueDate with
    | some due => score1 + dueDateBand (due - currentTime)
    | none => score1
  let score3 := if task.isCompleted then 0 else score2
  let score4 := score3 + ageBonus task currentTime
  max 0 score4

/-- The trailing `switch (task.priority)` of `determineUrgencyLevel`
(src/lib/prioritization.ts lines 113-118); the `default` arm is unreachable
for the typed priority union. -/
def priorityUrgency : Priority → Urgency
  | .high => .high
  | .medium => .medium
  | .low => .low

/-- `TaskPrioritizationService.determineUrgencyLevel`
(src/lib/prioritization.ts lines 99-119): completed → low; overdue or due
within 2 hours → critical; within 24 hours → high; within 72 hours → medium;
otherwise the task's own priority tier. -/
def determineUrgencyLevel (task : Task) (currentTime : Int) : Urgency :=
  if task.isCompleted then .low
  else
    match task.dueDate with
    | some due =>
      let msUntilDue := due - currentTime
      if msUntilDue < 0 then .critical
      else if msUntilDue < 2 * hourMs then .critical
      else if msUntilDue < 24 * hourMs then .high
      else if msUntilDue < 72 * hourMs then .medium
      else priorityUrgency task.priority
    | none => priorityUrgency task.priority

/-- JavaScript `String.prototype.includes` for a non-empty pattern:
the pattern occurs as a substring exactly when `splitOn` cuts the string
into at least two pieces. -/
def jsIncludes (s pat : String) : Bool := 2 ≤ (s.splitOn pat).length

/-- The `longTaskKeywords` array of `estimateTaskDuration`
(src/lib/prioritization.ts line 142). -/
def longTaskKeywords : List String :=
  ["research", "analyze", "write", "develop", "create", "design", "plan"]

/-- The `shortTaskKeywords` array of `estimateTaskDuration`
(src/lib/prioritization.ts line 143). -/
def shortTaskKeywords : List String :=
  ["call", "email", "check", "review", "update", "fix"]

/-- `TaskPrioritizationService.estimateTaskDuration`
(src/lib/prioritization.ts lines 121-156). -/
def estimateTaskDuration (task : Task) : Int :=
  let titleLength : Int := task.title.length
  let base1 : Int := 30
  let base2 := if titleLength > 50 then base1 + 15 else base1
  let base3 := if titleLength > 100 then base2 + 15 else base2
  let base4 := base3 +
    (match task.priority with
     | .high => 30
     | .medium => 15
     | .low => 0)
  let titleLower := task.title.toLower
  let base5 := if longTaskKeywords.any (fun k => jsIncludes titleLower k) then base4 + 45 else base4
  let base6 := if shortTaskKeywords.any (fun k => jsIncludes titleLower k) then base5 - 15 else base5
  max 15 base6

/-- `PrioritizedTask` (src/lib/prioritization.ts lines 3-8): a `Task` augmented
with score, urgency tier, optional hours-to-deadline (carried in exact ms,
see the file header) and estimated duration. -/
structure PrioritizedTask where
  task : Task
  priorityScore : Int
  urgencyLevel : Urgency
  timeToDeadlineMs : Option Int
  estimatedDuration : Option Int
deriving DecidableEq, Repr

/-- The per-task body of the `tasks.map` in `prioritizeTasks`
(src/lib/prioritization.ts lines 29-43). -/
def toPrioritized (currentTime : Int) (task : Task) : PrioritizedTask :=
  { task := task
    priorityScore := calculatePriorityScore task currentTime
    urgencyLevel := determineUrgencyLevel task currentTime
    timeToDeadlineMs := task.dueDate.map (fun due => due - currentTime)
    estimatedDuration := some (estimateTaskDuration task) }

/-- The comparator `(a, b) => b.priorityScore - a.priorityScore` of
`prioritizeTasks` (src/lib/prioritization.ts line 46), as the boolean relation
`cmp a b ≤ 0` used by the stable sort. -/
def scoreLe (a b : PrioritizedTask) : Bool :=
  decide (b.priorityScore ≤ a.priorityScore)

/-- `TaskPrioritizationService.prioritizeTasks`
(src/lib/prioritization.ts lines 25-47): map each task to its augmented
record, then stably sort by descending priority score. -/
def prioritizeTasks (tasks : List Task) (currentTime : Int) : List PrioritizedTask :=
  (tasks.map (toPrioritized currentTime)).mergeSort scoreLe

/-! ## Scheduling suggester (src/lib/prioritization.ts lines 219-281) -/

/-- The JavaScript guard pattern `task.timeToDeadline && task.timeToDeadline < h`
(hours): false when the field is `undefined` or `0`, otherwise the comparison,
embedded exactly over milliseconds. -/
def ttdLt (t : PrioritizedTask) (hoursBound : Int) : Bool :=
  match t.timeToDeadlineMs with
  | none => false
  | some d => decide (d ≠ 0) && decide (d < hoursBound * hourMs)

/-- The today-bucket predicate (src/lib/prioritization.ts lines 233-237):
critical, or high with time-to-deadline < 48 hours. -/
def todayPred (t : PrioritizedTask) : Bool :=
  decide (t.urgencyLevel = Urgency.critical) ||
    (decide (t.urgencyLevel = Urgency.high) && ttdLt t 48)

/-- The tomorrow-bucket predicate minus the today-exclusion
(src/lib/prioritization.ts lines 239-244): high, or medium with
time-to-deadline < 72 hours. -/
def tomorrowPred (t : PrioritizedTask) : Bool :=
  decide (t.urgencyLevel = Urgency.high) ||
    (decide (t.urgencyLevel = Urgency.medium) && ttdLt t 72)

/-- The this-week-bucket predicate minus the exclusions
(src/lib/prioritization.ts lines 246-250): time-to-deadline < 168 hours,
or medium. -/
def thisWeekPred (t : PrioritizedTask) : Bool :=
  ttdLt t 168 || decide (t.urgencyLevel = Urgency.medium)

/-- `activeTasks` (src/lib/prioritization.ts line 230): the incomplete tasks. -/
def suggestActive (ts : List PrioritizedTask) : List PrioritizedTask :=
  ts.filter (fun t => !t.task.isCompleted)

/-- `todayTasks` (src/lib/prioritization.ts lines 233-237): filter then
`slice(0, 5)`. -/
def suggestToday (ts : List PrioritizedTask) : List PrioritizedTask :=
  ((suggestActive ts).filter todayPred).take 5

/-- `tomorrowTasks` (src/lib/prioritization.ts lines 239-244): excluded when
already in `todayTasks` (`includes`), then filter, then `slice(0, 3)`. -/
def suggestTomorrow (ts : List PrioritizedTask) : List PrioritizedTask :=
  ((suggestActive ts).filter
    (fun t => !decide (t ∈ suggestToday ts) && tomorrowPred t)).take 3

/-- `thisWeekTasks` (src/lib/prioritization.ts lines 246-250): excluded when in
`todayTasks` or `tomorrowTasks`, then filter, then `slice(0, 7)`. -/
def suggestThisWeek (ts : List PrioritizedTask) : List PrioritizedTask :=
  ((suggestActive ts).filter
    (fun t => !decide (t ∈ suggestToday ts) && !decide (t ∈ suggestTomorrow ts) &&
      thisWeekPred t)).take 7

/-- The four advisory messages of `getTaskSchedulingSuggestions`
(src/lib/prioritization.ts lines 253-272), as tags (the literal strings are
presentational and never branched on). -/
inductive Advisory
  | noUrgentToday
  | manyUrgentToday
  | overdueCritical
  | overEightHours
  | tooManyActive
deriving DecidableEq, Repr

/-- The `suggestions` accumulation of `getTaskSchedulingSuggestions`
(src/lib/prioritization.ts lines 253-272), including the
`task.estimatedDuration || 30` falsy default. -/
def suggestAdvisories (ts : List PrioritizedTask) : List Advisory :=
  let active := suggestActive ts
  let today := suggestToday ts
  let a1 : List Advisory :=
    if today.length = 0 then [.noUrgentToday]
    else if today.length > 3 then [.manyUrgentToday]
    else []
  let a2 : List Advisory :=
    if (active.filter (fun t => decide (t.urgencyLevel = Urgency.critical))).length > 0 then
      [.overdueCritical]
    else []
  let totalEstimatedTime := today.foldl
    (fun sum t =>
      sum + (match t.estimatedDuration with
             | none => 30
             | some d => if d = 0 then 30 else d)) (0 : Int)
  let a3 : List Advisory := if totalEstimatedTime > 480 then [.overEightHours] else []
  let a4 : List Advisory := if active.length > 20 then [.tooManyActive] else []
  a1 ++ a2 ++ a3 ++ a4

/-- The return shape of `getTaskSchedulingSuggestions`
(src/lib/prioritization.ts lines 17-22 and 274-279). -/
structure SchedulingSuggestion where
  todayTasks : List PrioritizedTask
  tomorrowTasks : List PrioritizedTask
  thisWeekTasks : List PrioritizedTask
  advisories : List Advisory
deriving DecidableEq, Repr

/-- `TaskPrioritizationService.getTaskSchedulingSuggestions`
(src/lib/prioritization.ts lines 219-281). The `today`/`tomorrow`/`nextWeek`
date values computed at lines 224-228 are dead (never read by any filter)
and are omitted. -/
def getTaskSchedulingSuggestions (ts : List PrioritizedTask) : SchedulingSuggestion :=
  { todayTasks := suggestToday ts
    tomorrowTasks := suggestTomorrow ts
    thisWeekTasks := suggestThisWeek ts
    advisories := suggestAdvisories ts }

/-! ## Reminder scheduler (src/lib/reminders.ts) -/

/-- `'time' | 'location' | 'completion'` trigger kinds. -/
inductive TriggerType
  | time
  | location
  | completion
deriving DecidableEq, Repr

/-- `Reminder` from src/lib/types.ts. For the time-based reminders created by
`createTaskReminders`/`createEventReminders` the `triggerValue` ISO string is
carried as its exact instant in milliseconds. -/
structure Reminder where
  reminderId : String
  taskId : Option String
  eventId : Option String
  userId : String
  triggerType : TriggerType
  triggerValueMs : Int
  isTriggered : Bool
deriving DecidableEq, Repr

/-- `ContextualReminderService.createTaskReminders` (src/lib/reminders.ts
lines 73-132), projected onto the trigger instants of the reminders it
creates (id generation and persistence elided; the storage write is assumed
to succeed, its failure only drops entries). For a task with a due date:
due-24h and due-1h, each only if still in the future; for a high-priority
task without a due date: now+2h. -/
def createTaskReminders (task : Task) (now : Int) : List Int :=
  let dueTriggers :=
    match task.dueDate with
    | some due =>
      let oneDayBefore := due - 24 * hourMs
      let oneHourBefore := due - hourMs
      (if oneDayBefore > now then [oneDayBefore] else []) ++
        (if oneHourBefore > now then [oneHourBefore] else [])
    | none => []
  let priorityTriggers :=
    if task.priority = Priority.high ∧ task.dueDate = none then
      [now + 2 * hourMs]
    else []
  dueTriggers ++ priorityTriggers

/-- `ContextualReminderService.createEventReminders` (src/lib/reminders.ts
lines 137-177), projected onto trigger instants: start-15min if still in the
future; additionally start-1h when the event duration strictly exceeds one
hour and start-1h is still in the future. -/
def createEventReminders (event : CalendarEvent) (now : Int) : List Int :=
  let fifteenMinutesBefore := event.startTime - 15 * minuteMs
  let first := if fifteenMinutesBefore > now then [fifteenMinutesBefore] else []
  let eventDuration := event.endTime - event.startTime
  let oneHourBefore := event.startTime - hourMs
  let second :=
    if eventDuration > 60 * minuteMs ∧ oneHourBefore > now then [oneHourBefore] else []
  first ++ second

/-- The scheduler's observable state: the persisted reminder store and the
trace of dispatched notifications (one reminder id per dispatched
notification). The in-memory `activeReminders` timer map only bookkeeps
timeout handles and never gates a dispatch, so it is not part of the
observable state. -/
structure SchedulerState where
  store : List Reminder
  dispatched : List String
deriving DecidableEq, Repr

/-- `StorageService.triggerReminder`: set the persisted `isTriggered` flag of
the given reminder id. -/
def markTriggered (store : List Reminder) (rid : String) : List Reminder :=
  store.map (fun r => if r.reminderId = rid then { r with isTriggered := true } else r)

/-- `ContextualReminderService.triggerReminder` (src/lib/reminders.ts
lines 201-235), applied to the reminder snapshot `r` the caller holds:
(1) mark the persisted flag, (2) look up display text (irrelevant to the
dispatch count), (3) dispatch one notification, (4) drop the timer handle.
The function never reads `isTriggered` — neither from its argument snapshot
nor from the store — before dispatching. -/
def triggerReminder (s : SchedulerState) (r : Reminder) : SchedulerState :=
  { store := markTriggered s.store r.reminderId
    dispatched := s.dispatched ++ [r.reminderId] }

/-- `ContextualReminderService.checkReminders` (src/lib/reminders.ts
lines 279-295), the periodic sweep: take one snapshot of the store, and fire
`triggerReminder` for every snapshot entry that is a not-yet-triggered time
reminder whose trigger instant is ≤ now. The guard reads the snapshot's
`isTriggered`, exactly as the source loop does. -/
def checkReminders (s : SchedulerState) (now : Int) : SchedulerState :=
  s.store.foldl
    (fun acc r =>
      if r.isTriggered = false ∧ r.triggerType = TriggerType.time ∧ r.triggerValueMs ≤ now then
        triggerReminder acc r
      else acc)
    s

/-- How many notifications have been dispatched for a given reminder id. -/
def dispatchCount (s : SchedulerState) (rid : String) : Nat :=
  (s.dispatched.filter (fun i => i = rid)).length

/-! ## Utterance parser (src/lib/openai.ts) -/

/-- `ParsedVoiceInput` from src/lib/types.ts. `type` and `priority` are the
raw strings the extractor returned (`""` standing for a missing/falsy
field), so that the absence of membership validation is representable. -/
structure ParsedVoiceInput where
  type : String
  title : String
  description : Option String
  dueDate : Option Int
  startTime : Option Int
  endTime : Option Int
  location : Option String
  priority : String
deriving DecidableEq, Repr

/-- JavaScript `transcription.slice(0, 50)`. -/
def firstChars (n : Nat) (s : String) : String := (s.toList.take n).asString

/-- The `catch` fallback of `parseVoiceInput` (src/lib/openai.ts lines 84-90):
type task, title = first 50 characters, description = the whole utterance,
priority medium, no dates. -/
def fallbackParse (transcription : String) : ParsedVoiceInput :=
  { type := "task"
    title := firstChars 50 transcription
    description := some transcription
    dueDate := none
    startTime := none
    endTime := none
    location := none
    priority := "medium" }

/-- `parseVoiceInput` (src/lib/openai.ts lines 28-92). The extractor response
is the `extracted` parameter: `none` is the thrown path (no content from the
AI, or `JSON.parse` failure) which lands in the `catch` fallback; `some parsed`
is a successfully parsed JSON object, which is then patched field-by-field:
falsy `type` becomes task, falsy `title` becomes the first 50 characters of
the utterance, falsy `priority` becomes medium. Nothing else is validated. -/
def parseVoiceInput (transcription : String) (extracted : Option ParsedVoiceInput) :
    ParsedVoiceInput :=
  match extracted with
  | none => fallbackParse transcription
  | some parsed =>
    let p1 := if parsed.type = "" then { parsed with type := "task" } else parsed
    let p2 := if p1.title = "" then { p1 with title := firstChars 50 transcription } else p1
    if p2.priority = "" then { p2 with priority := "medium" } else p2

/-- The `parsed.type === 'event'` branch of `handleRecordingComplete`
(src/components/VoiceInput.tsx lines 52-64; src/unnamed/part_014 lines 60-73
is identical in these fields): start defaults to `new Date()` = now, end
defaults to `new Date(Date.now() + 60 * 60 * 1000)` = now + 60 minutes. -/
def buildEventFromParsed (parsed : ParsedVoiceInput) (now : Int) (eventId : String) :
    CalendarEvent :=
  { id := eventId
    eventId := eventId
    userId := "demo-user"
    title := parsed.title
    startTime := parsed.startTime.getD now
    endTime := parsed.endTime.getD (now + 60 * minuteMs)
    location := parsed.location
    notes := parsed.description
    priority := some (if parsed.priority = "" then "medium" else parsed.priority) }

/-! ## AI-assisted scoring path (src/unnamed/part_011) -/

/-- `TaskPriority` from src/unnamed/part_011. -/
structure TaskPriorityEntry where
  taskId : String
  priority : Priority
  urgencyScore : Int
  importanceScore : Int
  reasoning : String
  suggestedOrder : Int
deriving DecidableEq, Repr

/-- `PrioritizationResult` from src/unnamed/part_011. -/
structure PrioritizationResult where
  prioritizedTasks : List TaskPriorityEntry
  summary : String
  recommendations : List String
deriving DecidableEq, Repr

/-- `Math.ceil(a / b)` for integers with `b > 0` (exact on the rationals). -/
def iceilDiv (a b : Int) : Int := -((-a).fdiv b)

/-- The per-task body of `AITaskPrioritizer.fallbackPrioritization`
(src/unnamed/part_011 lines 145-192): urgency from days-until-due, keyword
bumps capped at 10, priority from the total score. -/
def fallbackAnalyze (task : Task) (now : Int) : TaskPriorityEntry :=
  let urgency0 : Int := 5
  let importance0 : Int := 5
  let urgency1 :=
    match task.dueDate with
    | some due =>
      let daysUntilDue := iceilDiv (due - now) dayMs
      if daysUntilDue ≤ 1 then 9
      else if daysUntilDue ≤ 3 then 7
      else if daysUntilDue ≤ 7 then 6
      else 4
    | none => urgency0
  let description := task.description.toLower
  let urgency2 :=
    if jsIncludes description "urgent" || jsIncludes description "asap" ||
        jsIncludes description "immediately" then
      min 10 (urgency1 + 3)
    else urgency1
  let urgency3 :=
    if jsIncludes description "deadline" || jsIncludes description "due" then
      min 10 (urgency2 + 2)
    else urgency2
  let importance1 :=
    if jsIncludes description "important" || jsIncludes description "critical" ||
        jsIncludes description "key" then
      min 10 (importance0 + 3)
    else importance0
  let importance2 :=
    if jsIncludes description "meeting" || jsIncludes description "presentation" ||
        jsIncludes description "client" then
      min 10 (importance1 + 2)
    else importance1
  let totalScore := urgency3 + importance2
  let priority :=
    if totalScore ≥ 16 then Priority.high
    else if totalScore ≥ 12 then Priority.medium
    else Priority.low
  { taskId := task.taskId
    priority := priority
    urgencyScore := urgency3
    importanceScore := importance2
    reasoning := "Urgency: " ++ toString urgency3 ++ "/10, Importance: " ++
      toString importance2 ++ "/10"
    suggestedOrder := 0 }

/-- The sort comparator of `fallbackPrioritization` (src/unnamed/part_011
lines 193-199): total score descending, ties by urgency descending, as the
boolean relation `cmp a b ≤ 0`. -/
def fallbackLe (a b : TaskPriorityEntry) : Bool :=
  let sa := a.urgencyScore + a.importanceScore
  let sb := b.urgencyScore + b.importanceScore
  if sa = sb then decide (b.urgencyScore ≤ a.urgencyScore) else decide (sb < sa)

/-- `AITaskPrioritizer.fallbackPrioritization` (src/unnamed/part_011 lines
140-215): analyze each incomplete task, sort, then number `suggestedOrder`. -/
def fallbackPrioritization (tasks : List Task) (now : Int) : PrioritizationResult :=
  let analyzed := (tasks.filter (fun t => !t.isCompleted)).map (fun t => fallbackAnalyze t now)
  let sorted := analyzed.mergeSort fallbackLe
  let ordered := sorted.mapIdx (fun i e => { e with suggestedOrder := (i : Int) + 1 })
  { prioritizedTasks := ordered
    summary := "Tasks prioritized using rule-based analysis of due dates and keywords"
    recommendations :=
      ["Focus on high-priority tasks first",
       "Consider breaking down complex tasks into smaller steps",
       "Set specific deadlines for tasks without due dates",
       "Review and adjust priorities regularly"] }

/-- JavaScript `new Set(list).size`: the number of distinct elements. -/
def distinctCount (ids : List String) : Nat := ids.eraseDups.length

/-- `AITaskPrioritizer.prioritizeTasks` (src/unnamed/part_011 lines 32-135).
The assisted response is the `response` parameter: `none` is the thrown path
(no content, malformed JSON, or `prioritizedTasks` not an array), which falls
back; `some result` is a structurally well-formed response, which is accepted
as-is unless the number of DISTINCT task ids in it differs from the number of
distinct input task ids (the source compares `Set` sizes only). -/
def aiPrioritizeTasks (tasks : List Task) (response : Option PrioritizationResult)
    (now : Int) : PrioritizationResult :=
  if tasks.isEmpty then
    { prioritizedTasks := [], summary := "No tasks to prioritize", recommendations := [] }
  else
    match response with
    | none => fallbackPrioritization tasks now
    | some result =>
      if distinctCount (result.prioritizedTasks.map (fun e => e.taskId)) ≠
          distinctCount (tasks.map (fun t => t.taskId)) then
        fallbackPrioritization tasks now
      else result

/-! ## AI-assisted scoring path, merge variant (src/unnamed/part_007) -/

/-- One entry of the AI response consumed by
`TaskPrioritizationService.prioritizeTasks` in src/unnamed/part_007. -/
structure AIAnalysisEntry where
  taskId : String
  aiScore : Int
  aiReasoning : String
  suggestedOrder : Int
deriving DecidableEq, Repr

/-- `PrioritizedTask` from src/unnamed/part_007: a task plus AI fields. -/
structure AIPrioritizedTask where
  task : Task
  aiScore : Int
  aiReasoning : String
  suggestedOrder : Int
deriving DecidableEq, Repr

/-- The per-task body of the merge step in src/unnamed/part_007 lines 104-112:
find the response entry with the task's id and take its fields, each with a
falsy-default (`|| 50`, `|| 'No AI analysis available'`, `|| 999`); a task
whose id is absent from the response gets all three defaults. -/
def part007MergeOne (entries : List AIAnalysisEntry) (task : Task) : AIPrioritizedTask :=
  match entries.find? (fun p => p.taskId = task.taskId) with
  | some a =>
    { task := task
      aiScore := if a.aiScore = 0 then 50 else a.aiScore
      aiReasoning := if a.aiReasoning = "" then "No AI analysis available" else a.aiReasoning
      suggestedOrder := if a.suggestedOrder = 0 then 999 else a.suggestedOrder }
  | none =>
    { task := task
      aiScore := 50
      aiReasoning := "No AI analysis available"
      suggestedOrder := 999 }

/-- The merge step of `TaskPrioritizationService.prioritizeTasks`
(src/unnamed/part_007 lines 101-115), reached whenever the response parsed as
JSON: every input task is kept and merged per-task with defaults — no id
validation of any kind — then sorted by `suggestedOrder` ascending. -/
def part007Merge (tasks : List Task) (entries : List AIAnalysisEntry) :
    List AIPrioritizedTask :=
  (tasks.map (part007MergeOne entries)).mergeSort
    (fun a b => decide (a.suggestedOrder ≤ b.suggestedOrder))

/-! ## Concrete fixtures used by counterexamples and witnesses -/

/-- A completed task created at instant 0 (used against claim C1). -/
def oldDoneTask : Task :=
  { id := "1", taskId := "1", userId := "u", title := "t", description := "d",
    isCompleted := true, createdAt := 0, dueDate := none, completedAt := some 0,
    priority := Priority.high }

/-- An incomplete high-priority task due at instant 0 (used for claim C6). -/
def overdueHighTask : Task :=
  { id := "2", taskId := "2", userId := "u", title := "report", description := "report",
    isCompleted := false, createdAt := 0, dueDate := some 0, completedAt := none,
    priority := Priority.high }

/-! ## C1 — completed tasks: urgency low, but the age bonus survives the zeroing -/

/-- C1 counterexample: the claim says a completed task scores exactly 0
regardless of its age, but `calculatePriorityScore` applies the +10 age bonus
AFTER the completion zeroing (src/lib/prioritization.ts lines 86-94), so a
completed task 8 days old scores 10. -/
theorem c1_counterexample :
    oldDoneTask.isCompleted = true ∧
      calculatePriorityScore oldDoneTask (8 * dayMs) = 10 := by
  constructor
  · rfl
  · decide

/-- C1 amended: for every completed task the urgency tier is low and the score
equals exactly the age bonus — 0 when the task is at most 7 days old at the
reference instant, 10 when it is older. -/
theorem c1_amended (task : Task) (now : Int) (hc : task.isCompleted = true) :
    determineUrgencyLevel task now = Urgency.low ∧
    calculatePriorityScore task now = ageBonus task now ∧
    (now - task.createdAt ≤ 7 * dayMs → calculatePriorityScore task now = 0) ∧
    (7 * dayMs < now - task.createdAt → calculatePriorityScore task now = 10) := by
  have hu : determineUrgencyLevel task now = Urgency.low := by
    simp [determineUrgencyLevel, hc]
  have hs : calculatePriorityScore task now = ageBonus task now := by
    simp only [calculatePriorityScore, hc, if_true]
    unfold ageBonus
    split <;> simp
  have hD : dayMs = 86400000 := rfl
  refine ⟨hu, hs, ?_, ?_⟩
  · intro h
    rw [hs]
    unfold ageBonus
    split <;> omega
  · intro h
    rw [hs]
    unfold ageBonus
    split <;> omega

/-- C1 witness: the amended statement evaluated on the concrete completed
task, 8 days after its creation. -/
theorem c1_amended_witness :
    determineUrgencyLevel oldDoneTask (8 * dayMs) = Urgency.low ∧
      calculatePriorityScore oldDoneTask (8 * dayMs) = 10 :=
  ⟨(c1_amended oldDoneTask (8 * dayMs) rfl).1,
   (c1_amended oldDoneTask (8 * dayMs) rfl).2.2.2 (by decide)⟩

/-! ## C6 — high-priority overdue tasks score at least 300 and are critical;
the due-date adjustment is a single band -/

/-- C6: for an incomplete task with a due date, the score decomposes as the
floored sum of the priority base, exactly one due-date band (selected by the
overdue / 2h / 24h / 72h chain from most to least urgent, no stacking) and
the age bonus; when the priority is high and the due date is strictly in the
past the score is at least 300 and the urgency tier is critical. -/
theorem c6_high_overdue (task : Task) (now due : Int)
    (hdue : task.dueDate = some due) (hc : task.isCompleted = false) :
    (task.priority = Priority.high → due < now →
      300 ≤ calculatePriorityScore task now ∧
        determineUrgencyLevel task now = Urgency.critical) ∧
    calculatePriorityScore task now =
      max 0 (priorityBase task.priority + dueDateBand (due - now) + ageBonus task now) ∧
    (due - now < 0 → dueDateBand (due - now) = 200) ∧
    (0 ≤ due - now → due - now < 2 * hourMs → dueDateBand (due - now) = 150) ∧
    (2 * hourMs ≤ due - now → due - now < 24 * hourMs → dueDateBand (due - now) = 75) ∧
    (24 * hourMs ≤ due - now → due - now < 72 * hourMs → dueDateBand (due - now) = 25) ∧
    (72 * hourMs ≤ due - now → dueDateBand (due - now) = 0) := by
  have hH : hourMs = 3600000 := rfl
  have hdecomp : calculatePriorityScore task now =
      max 0 (priorityBase task.priority + dueDateBand (due - now) + ageBonus task now) := by
    simp [calculatePriorityScore, hdue, hc, Int.add_assoc]
  have hband200 : due - now < 0 → dueDateBand (due - now) = 200 := by
    intro h
    unfold dueDateBand
    simp [h]
  have hage : ageBonus task now = 10 ∨ ageBonus task now = 0 := by
    unfold ageBonus
    split
    · exact Or.inl rfl
    · exact Or.inr rfl
  refine ⟨?_, hdecomp, hband200, ?_, ?_, ?_, ?_⟩
  · intro hp hlt
    have hb : dueDateBand (due - now) = 200 := hband200 (by omega)
    have h100 : priorityBase Priority.high = 100 := rfl
    constructor
    · rw [hdecomp, hp, hb, h100]
      rcases hage with h | h <;> rw [h] <;> decide
    · unfold determineUrgencyLevel
      rw [hdue]
      simp only [hc, Bool.false_eq_true, if_false]
      rw [if_pos (show due - now < 0 by omega)]
  · intro h1 h2
    unfold dueDateBand
    split <;> omega
  · intro h1 h2
    unfold dueDateBand
    split <;> omega
  · intro h1 h2
    unfold dueDateBand
    split <;> omega
  · intro h1
    unfold dueDateBand
    split <;> omega

/-- C6 witness: the concrete incomplete high-priority task due at instant 0,
scored one hour later: score 300, urgency critical. -/
theorem c6_high_overdue_witness :
    300 ≤ calculatePriorityScore overdueHighTask hourMs ∧
      determineUrgencyLevel overdueHighTask hourMs = Urgency.critical :=
  (c6_high_overdue overdueHighTask hourMs 0 rfl rfl).1 rfl (by decide)

/-! ## C7 — reminder trigger derivation -/

/-- A 90-minute event starting at instant 10000000 (used for claim C7). -/
def ninetyMinEvent : CalendarEvent :=
  { id := "e90", eventId := "e90", userId := "u", title := "meeting",
    startTime := 10000000, endTime := 10000000 + 90 * minuteMs,
    location := none, notes := none, priority := none }

/-- A 30-minute event starting at instant 10000000 (used for claim C7). -/
def thirtyMinEvent : CalendarEvent :=
  { ninetyMinEvent with
    id := "e30"
    eventId := "e30"
    endTime := 10000000 + 30 * minuteMs }

/-- C7: trigger derivation. Task with a due date: a trigger at due-24h and one
at due-1h, each present exactly when still in the future, and nothing else;
high-priority task without a due date: exactly one trigger at now+2h; event:
start-15min exactly when still in the future, start-1h exactly when the
duration strictly exceeds 60 minutes and it is still in the future, nothing
else; in particular a 90-minute event with start-1h in the future yields
exactly [start-15min, start-1h] and a 30-minute event with start-15min in the
future yields exactly [start-15min]. -/
theorem c7_trigger_derivation :
    (∀ (task : Task) (now due : Int), task.dueDate = some due →
      ((due - 24 * hourMs ∈ createTaskReminders task now) ↔ now < due - 24 * hourMs) ∧
      ((due - hourMs ∈ createTaskReminders task now) ↔ now < due - hourMs) ∧
      (∀ x ∈ createTaskReminders task now,
        x = due - 24 * hourMs ∨ x = due - hourMs)) ∧
    (∀ (task : Task) (now : Int), task.priority = Priority.high → task.dueDate = none →
      createTaskReminders task now = [now + 2 * hourMs]) ∧
    (∀ (event : CalendarEvent) (now : Int),
      ((event.startTime - 15 * minuteMs ∈ createEventReminders event now) ↔
        now < event.startTime - 15 * minuteMs) ∧
      ((event.startTime - hourMs ∈ createEventReminders event now) ↔
        (60 * minuteMs < event.endTime - event.startTime ∧
          now < event.startTime - hourMs)) ∧
      (∀ x ∈ createEventReminders event now,
        x = event.startTime - 15 * minuteMs ∨ x = event.startTime - hourMs)) ∧
    (∀ (event : CalendarEvent) (now : Int),
      event.endTime - event.startTime = 90 * minuteMs → now < event.startTime - hourMs →
      createEventReminders event now =
        [event.startTime - 15 * minuteMs, event.startTime - hourMs]) ∧
    (∀ (event : CalendarEvent) (now : Int),
      event.endTime - event.startTime = 30 * minuteMs →
      now < event.startTime - 15 * minuteMs →
      createEventReminders event now = [event.startTime - 15 * minuteMs]) := by
  have hH : hourMs = 3600000 := rfl
  have hM : minuteMs = 60000 := rfl
  refine ⟨?_, ?_, ?_, ?_, ?_⟩
  · intro task now due hdue
    unfold createTaskReminders
    simp only [hdue, reduceCtorEq, and_false, if_false, List.append_nil]
    by_cases hA : due - 24 * hourMs > now <;> by_cases hB : due - hourMs > now <;>
      simp [hA, hB] <;> omega
  · intro task now hp hnone
    unfold createTaskReminders
    simp [hnone, hp]
  · intro event now
    unfold createEventReminders
    by_cases hA : event.startTime - 15 * minuteMs > now <;>
      by_cases hB : 60 * minuteMs < event.endTime - event.startTime ∧
        event.startTime - hourMs > now <;>
      simp [hA, hB] <;> omega
  · intro event now hdur hfut
    unfold createEventReminders
    have h1 : event.startTime - 15 * minuteMs > now := by omega
    have h2 : (90 : Int) * minuteMs > 60 * minuteMs := by omega
    simp [hdur, h1, h2, hfut]
  · intro event now hdur hfut
    unfold createEventReminders
    have h1 : event.startTime - 15 * minuteMs > now := by omega
    have h2 : ¬((30 : Int) * minuteMs > 60 * minuteMs) := by omega
    simp [hdur, h1, h2]

/-- C7 witness: the trigger lists of the concrete 90-minute and 30-minute
events, both derived at reference instant 0. -/
theorem c7_trigger_derivation_witness :
    createEventReminders ninetyMinEvent 0 =
      [ninetyMinEvent.startTime - 15 * minuteMs, ninetyMinEvent.startTime - hourMs] ∧
    createEventReminders thirtyMinEvent 0 =
      [thirtyMinEvent.startTime - 15 * minuteMs] :=
  ⟨c7_trigger_derivation.2.2.2.1 ninetyMinEvent 0 (by decide) (by decide),
   c7_trigger_derivation.2.2.2.2 thirtyMinEvent 0 (by decide) (by decide)⟩

/-! ## C3 — the firing step does not check the triggered flag -/

/-- A pending time reminder due at instant 1000 (used against claim C3).
This is also the snapshot a one-shot `setTimeout` callback would hold. -/
def raceReminder : Reminder :=
  { reminderId := "r1", taskId := some "1", eventId := none, userId := "u",
    triggerType := TriggerType.time, triggerValueMs := 1000, isTriggered := false }

/-- The store holding exactly the pending race reminder, nothing dispatched. -/
def raceState : SchedulerState := { store := [raceReminder], dispatched := [] }

/-- C3 failing run: the periodic sweep fires the due reminder first (one
dispatch, persisted flag set to true); the still-pending one-shot timer
callback then runs `triggerReminder` on its captured snapshot, and because
`triggerReminder` (src/lib/reminders.ts lines 201-235) never reads the
persisted `isTriggered` flag before dispatching, a second notification goes
out for the same reminder even though the flag was already true. -/
theorem c3_race_double_dispatch :
    (checkReminders raceState 2000).store = [{ raceReminder with isTriggered := true }] ∧
    dispatchCount (checkReminders raceState 2000) "r1" = 1 ∧
    dispatchCount (triggerReminder (checkReminders raceState 2000) raceReminder) "r1" = 2 := by
  decide

/-! ## C4 — the parser accepts unvalidated extractor output -/

/-- Normal form of `parseVoiceInput` on a successfully parsed extractor
response: three independent falsy-field defaults and nothing else. -/
theorem parseVoiceInput_some_eq (t : String) (raw : ParsedVoiceInput) :
    parseVoiceInput t (some raw) =
      { type := if raw.type = "" then "task" else raw.type
        title := if raw.title = "" then firstChars 50 t else raw.title
        description := raw.description
        dueDate := raw.dueDate
        startTime := raw.startTime
        endTime := raw.endTime
        location := raw.location
        priority := if raw.priority = "" then "medium" else raw.priority } := by
  by_cases h1 : raw.type = "" <;> by_cases h2 : raw.title = "" <;>
    by_cases h3 : raw.priority = "" <;> simp [parseVoiceInput, h1, h2, h3]

/-- An extractor response whose `type` is neither task nor event
(used against claim C4). -/
def bananaParsed : ParsedVoiceInput :=
  { type := "banana", title := "x", description := none, dueDate := none,
    startTime := none, endTime := none, location := none, priority := "medium" }

/-- C4 counterexample: the claim says extractor output is accepted only when
its type is exactly task or event, anything else yielding the deterministic
fallback; but `parseVoiceInput` (src/lib/openai.ts lines 77-79) only patches
FALSY fields, so the truthy type "banana" is returned as-is — the result is
neither a task, nor an event, nor the fallback intent. -/
theorem c4_counterexample :
    (parseVoiceInput "buy milk" (some bananaParsed)).type = "banana" ∧
    (parseVoiceInput "buy milk" (some bananaParsed)).type ≠ "task" ∧
    (parseVoiceInput "buy milk" (some bananaParsed)).type ≠ "event" ∧
    parseVoiceInput "buy milk" (some bananaParsed) ≠ fallbackParse "buy milk" := by
  decide

/-- C4 amended: `parseVoiceInput` is total and returns the deterministic
fallback (type task, title = first 50 characters, priority medium, no dates)
exactly on the thrown path (no AI content / malformed JSON); a successfully
parsed response is accepted with per-field defaulting only — a non-empty
type string survives unvalidated, an empty title is replaced by the first 50
characters of the utterance, and extractor-supplied dates are kept. -/
theorem c4_amended :
    (∀ t, parseVoiceInput t none = fallbackParse t) ∧
    (∀ t raw, raw.type ≠ "" → (parseVoiceInput t (some raw)).type = raw.type) ∧
    (∀ t raw, raw.title = "" → (parseVoiceInput t (some raw)).title = firstChars 50 t) ∧
    (∀ t raw,
      (parseVoiceInput t (some raw)).dueDate = raw.dueDate ∧
      (parseVoiceInput t (some raw)).startTime = raw.startTime ∧
      (parseVoiceInput t (some raw)).endTime = raw.endTime) := by
  refine ⟨fun t => rfl, ?_, ?_, ?_⟩
  · intro t raw h
    rw [parseVoiceInput_some_eq]
    simp [h]
  · intro t raw h
    rw [parseVoiceInput_some_eq]
    simp [h]
  · intro t raw
    rw [parseVoiceInput_some_eq]
    exact ⟨rfl, rfl, rfl⟩

/-- C4 witness: the amended statement evaluated on the utterance "buy milk"
with a response that has an empty title: the title is defaulted to the
utterance (shorter than 50 characters), and the thrown path gives the exact
fallback intent. -/
theorem c4_amended_witness :
    parseVoiceInput "buy milk" none = fallbackParse "buy milk" ∧
    (parseVoiceInput "buy milk"
      (some { bananaParsed with title := "" })).title = firstChars 50 "buy milk" :=
  ⟨c4_amended.1 "buy milk",
   c4_amended.2.2.1 "buy milk" { bananaParsed with title := "" } rfl⟩

/-! ## C2 — default event end time is now+60min, not start+60min -/

/-- An extractor response for an event with an explicit start and no end
(used against claim C2): start at instant 432000000 (five days in). -/
def startOnlyParsed : ParsedVoiceInput :=
  { type := "event", title := "Lunch with Sarah", description := none, dueDate := none,
    startTime := some 432000000, endTime := none, location := some "the Italian restaurant",
    priority := "medium" }

/-- C2 counterexample: for an event parsed with an explicit start and no end,
`handleRecordingComplete` (src/components/VoiceInput.tsx line 60, identically
src/unnamed/part_014 line 66) defaults the end to `Date.now() + 60min` = now +
60 minutes — not start + 60 minutes: with now = 0 the end lands at 3600000,
one hour after the reference instant and long BEFORE the explicit start. -/
theorem c2_counterexample :
    startOnlyParsed.endTime = none ∧
    (buildEventFromParsed startOnlyParsed 0 "e1").startTime = 432000000 ∧
    (buildEventFromParsed startOnlyParsed 0 "e1").endTime = 3600000 ∧
    (buildEventFromParsed startOnlyParsed 0 "e1").endTime ≠
      (buildEventFromParsed startOnlyParsed 0 "e1").startTime + 60 * minuteMs := by
  decide

/-- C2 amended: an omitted start defaults to the reference now, and an
omitted end defaults to now + 60 minutes (not start + 60 minutes); the two
defaults coincide with "end = start + 60 minutes" exactly when the start is
also omitted (or happens to equal now). -/
theorem c2_amended (parsed : ParsedVoiceInput) (now : Int) (eid : String) :
    (parsed.startTime = none → (buildEventFromParsed parsed now eid).startTime = now) ∧
    (parsed.endTime = none →
      (buildEventFromParsed parsed now eid).endTime = now + 60 * minuteMs) ∧
    (parsed.startTime = none → parsed.endTime = none →
      (buildEventFromParsed parsed now eid).endTime =
        (buildEventFromParsed parsed now eid).startTime + 60 * minuteMs) := by
  refine ⟨?_, ?_, ?_⟩
  · intro h
    simp [buildEventFromParsed, h]
  · intro h
    simp [buildEventFromParsed, h]
  · intro hs he
    simp [buildEventFromParsed, hs, he]

/-- C2 witness: the amended statement evaluated on a response with no start
and no end at reference instant 1000: start = 1000, end = start + 60min. -/
theorem c2_amended_witness :
    (buildEventFromParsed { startOnlyParsed with startTime := none } 1000 "e2").startTime
        = 1000 ∧
    (buildEventFromParsed { startOnlyParsed with startTime := none } 1000 "e2").endTime
        = (buildEventFromParsed { startOnlyParsed with startTime := none } 1000 "e2").startTime
          + 60 * minuteMs :=
  ⟨(c2_amended { startOnlyParsed with startTime := none } 1000 "e2").1 rfl,
   (c2_amended { startOnlyParsed with startTime := none } 1000 "e2").2.2 rfl rfl⟩

/-! ## C5 — the assisted-scoring validation is weaker than the claim -/

/-- The base record projection of `part007MergeOne` always returns the input
task unchanged. -/
theorem part007MergeOne_task (entries : List AIAnalysisEntry) (task : Task) :
    (part007MergeOne entries task).task = task := by
  unfold part007MergeOne
  split <;> rfl

/-- Input task a (used against claim C5). -/
def taskA : Task :=
  { id := "a", taskId := "a", userId := "u", title := "a", description := "a",
    isCompleted := false, createdAt := 0, dueDate := none, completedAt := none,
    priority := Priority.medium }

/-- Input task b (used against claim C5). -/
def taskB : Task :=
  { taskA with id := "b", taskId := "b", title := "b", description := "b" }

/-- An assisted-scoring entry for a given task id (used against claim C5). -/
def entryWithId (i : String) : TaskPriorityEntry :=
  { taskId := i, priority := Priority.high, urgencyScore := 9, importanceScore := 9,
    reasoning := "r", suggestedOrder := 1 }

/-- An assisted response for inputs a, b that omits input id b and substitutes
an unknown id c — yet has the right number of distinct ids. -/
def substitutedResp : PrioritizationResult :=
  { prioritizedTasks := [entryWithId "a", entryWithId "c"], summary := "s",
    recommendations := [] }

/-- C5 counterexample: the claim says an assisted output that does not contain
every input task id exactly once is discarded in its entirety; but
`AITaskPrioritizer.prioritizeTasks` (src/unnamed/part_011 lines 119-128) only
compares `Set` SIZES, so a response missing input id b (with unknown id c in
its place) is accepted and returned verbatim. -/
theorem c5_counterexample :
    aiPrioritizeTasks [taskA, taskB] (some substitutedResp) 0 = substitutedResp ∧
    substitutedResp.prioritizedTasks.map (fun e => e.taskId) = ["a", "c"] ∧
    taskB.taskId = "b" := by
  decide

/-- C5 amended: the part_011 path discards the assisted result (falling back
to the deterministic algorithm in full) only when the response is malformed
(thrown path) or when the number of DISTINCT response task ids differs from
the number of distinct input ids; any response passing that size check is
returned unchanged, with no per-id or per-score validation. The part_007
path never discards at all: it keeps every input task and merges the
response per-task, defaulting score 50 / order 999 / placeholder reasoning
for ids missing from the response. -/
theorem c5_amended :
    (∀ (tasks : List Task) (resp : PrioritizationResult) (now : Int),
      tasks ≠ [] →
      distinctCount (resp.prioritizedTasks.map (fun e => e.taskId)) =
        distinctCount (tasks.map (fun t => t.taskId)) →
      aiPrioritizeTasks tasks (some resp) now = resp) ∧
    (∀ (tasks : List Task) (now : Int), tasks ≠ [] →
      aiPrioritizeTasks tasks none now = fallbackPrioritization tasks now) ∧
    (∀ (tasks : List Task) (entries : List AIAnalysisEntry),
      ((part007Merge tasks entries).map (fun p => p.task)).Perm tasks) ∧
    (∀ (entries : List AIAnalysisEntry) (task : Task),
      entries.find? (fun p => p.taskId = task.taskId) = none →
      part007MergeOne entries task =
        { task := task, aiScore := 50, aiReasoning := "No AI analysis available",
          suggestedOrder := 999 }) := by
  refine ⟨?_, ?_, ?_, ?_⟩
  · intro tasks resp now hne hcount
    unfold aiPrioritizeTasks
    simp [List.isEmpty_iff, hne, hcount]
  · intro tasks now hne
    unfold aiPrioritizeTasks
    simp [List.isEmpty_iff, hne]
  · intro tasks entries
    have h1 : List.Perm (part007Merge tasks entries) (tasks.map (part007MergeOne entries)) :=
      List.mergeSort_perm _ _
    have h2 := h1.map (fun p : AIPrioritizedTask => p.task)
    have h3 : (tasks.map (part007MergeOne entries)).map
        (fun p : AIPrioritizedTask => p.task) = tasks := by
      rw [List.map_map]
      simp [Function.comp_def, part007MergeOne_task]
    rw [h3] at h2
    exact h2
  · intro entries task h
    unfold part007MergeOne
    rw [h]

/-- C5 witness: the amended statement evaluated concretely — the thrown path
on inputs a, b yields exactly the deterministic fallback result, and the
part_007 merge of task a against an empty response yields the all-defaults
record for a. -/
theorem c5_amended_witness :
    aiPrioritizeTasks [taskA, taskB] none 0 = fallbackPrioritization [taskA, taskB] 0 ∧
    part007MergeOne [] taskA =
      { task := taskA, aiScore := 50, aiReasoning := "No AI analysis available",
        suggestedOrder := 999 } :=
  ⟨c5_amended.2.1 [taskA, taskB] 0 (by decide),
   c5_amended.2.2.2 [] taskA rfl⟩

/-! ## C10 — prioritizeTasks is a score-sorted permutation -/

/-- The sort relation `scoreLe` is transitive (comparator consistency). -/
theorem scoreLe_trans (a b c : PrioritizedTask) :
    scoreLe a b → scoreLe b c → scoreLe a c := by
  simp only [scoreLe, decide_eq_true_eq]
  omega

/-- The sort relation `scoreLe` is total (comparator consistency). -/
theorem scoreLe_total (a b : PrioritizedTask) : scoreLe a b || scoreLe b a := by
  simp only [scoreLe, Bool.or_eq_true, decide_eq_true_eq]
  omega

/-- C10: `prioritizeTasks` returns exactly the input tasks — the base `Task`
record of each output element is unchanged, and mapping the outputs back to
their base tasks is a permutation of the input (nothing added, dropped or
duplicated) — and the output is sorted by non-increasing `priorityScore`. -/
theorem c10_perm_sorted (tasks : List Task) (now : Int) :
    List.Perm ((prioritizeTasks tasks now).map (fun p => p.task)) tasks ∧
    (prioritizeTasks tasks now).Pairwise
      (fun a b => b.priorityScore ≤ a.priorityScore) := by
  constructor
  · have h1 : List.Perm (prioritizeTasks tasks now) (tasks.map (toPrioritized now)) :=
      List.mergeSort_perm _ _
    have h2 := h1.map (fun p : PrioritizedTask => p.task)
    have h3 : (tasks.map (toPrioritized now)).map (fun p : PrioritizedTask => p.task)
        = tasks := by
      rw [List.map_map]
      simp [Function.comp_def, toPrioritized]
    rw [h3] at h2
    exact h2
  · have h := List.sorted_mergeSort
      (fun a b c => scoreLe_trans a b c) (fun a b => scoreLe_total a b)
      (tasks.map (toPrioritized now))
    exact h.imp (fun hab => of_decide_eq_true hab)

/-! ## C8 — buckets are mutually exclusive, capped, and order-preserving -/

/-- The today bucket is a sublist of the input list. -/
theorem suggestToday_sublist (ts : List PrioritizedTask) :
    (suggestToday ts).Sublist ts := by
  unfold suggestToday suggestActive
  exact ((List.take_sublist _ _).trans (List.filter_sublist _)).trans (List.filter_sublist _)

/-- C8: in the scheduling suggester each task appears in at most one of the
today / tomorrow / thisWeek buckets (a tomorrow member is never a today
member; a thisWeek member is in neither earlier bucket), the buckets respect
their caps of 5 / 3 / 7, and when the input is sorted by non-increasing
score so is the today bucket. -/
theorem c8_buckets (ts : List PrioritizedTask) :
    (∀ t ∈ (getTaskSchedulingSuggestions ts).tomorrowTasks,
        t ∉ (getTaskSchedulingSuggestions ts).todayTasks) ∧
    (∀ t ∈ (getTaskSchedulingSuggestions ts).thisWeekTasks,
        t ∉ (getTaskSchedulingSuggestions ts).todayTasks ∧
        t ∉ (getTaskSchedulingSuggestions ts).tomorrowTasks) ∧
    (getTaskSchedulingSuggestions ts).todayTasks.length ≤ 5 ∧
    (getTaskSchedulingSuggestions ts).tomorrowTasks.length ≤ 3 ∧
    (getTaskSchedulingSuggestions ts).thisWeekTasks.length ≤ 7 ∧
    (ts.Pairwise (fun a b => b.priorityScore ≤ a.priorityScore) →
      (getTaskSchedulingSuggestions ts).todayTasks.Pairwise
        (fun a b => b.priorityScore ≤ a.priorityScore)) := by
  refine ⟨?_, ?_, ?_, ?_, ?_, ?_⟩
  · intro t ht
    have h1 : t ∈ (suggestActive ts).filter
        (fun t => !decide (t ∈ suggestToday ts) && tomorrowPred t) :=
      List.mem_of_mem_take ht
    have h2 := (List.mem_filter.mp h1).2
    simp only [Bool.and_eq_true, Bool.not_eq_true', decide_eq_false_iff_not] at h2
    exact h2.1
  · intro t ht
    have h1 : t ∈ (suggestActive ts).filter
        (fun t => !decide (t ∈ suggestToday ts) && !decide (t ∈ suggestTomorrow ts) &&
          thisWeekPred t) :=
      List.mem_of_mem_take ht
    have h2 := (List.mem_filter.mp h1).2
    simp only [Bool.and_eq_true, Bool.not_eq_true', decide_eq_false_iff_not] at h2
    exact ⟨h2.1.1, h2.1.2⟩
  · exact List.length_take_le 5 _
  · exact List.length_take_le 3 _
  · exact List.length_take_le 7 _
  · intro hsorted
    exact List.Pairwise.sublist (suggestToday_sublist ts) hsorted

/-- C8 witness: the conjuncts with hypotheses evaluated on the concrete
one-element list holding the overdue high-priority task: cap respected and
the today bucket sorted, from the trivially sorted input. -/
theorem c8_buckets_witness :
    (getTaskSchedulingSuggestions [toPrioritized hourMs overdueHighTask]).todayTasks.length
        ≤ 5 ∧
    (getTaskSchedulingSuggestions [toPrioritized hourMs overdueHighTask]).todayTasks.Pairwise
        (fun a b => b.priorityScore ≤ a.priorityScore) :=
  ⟨(c8_buckets [toPrioritized hourMs overdueHighTask]).2.2.1,
   (c8_buckets [toPrioritized hourMs overdueHighTask]).2.2.2.2.2 (by simp)⟩

/-! ## C9 — the 6th critical task is not dropped: it lands in thisWeek -/

/-- A prioritized record of an incomplete critical task, one hour overdue,
with the given id and score (used against claim C9). -/
def critRec (n : String) (score : Int) : PrioritizedTask :=
  { task := { id := n, taskId := n, userId := "u", title := n, description := n,
              isCompleted := false, createdAt := 0, dueDate := some (-3600000),
              completedAt := none, priority := Priority.high }
    priorityScore := score
    urgencyLevel := Urgency.critical
    timeToDeadlineMs := some (-3600000)
    estimatedDuration := some 30 }

/-- Six incomplete critical tasks, sorted by descending score. -/
def sixCritical : List PrioritizedTask :=
  [critRec "a" 600, critRec "b" 500, critRec "c" 400,
   critRec "d" 300, critRec "e" 200, critRec "f" 100]

/-- C9 counterexample: with exactly 6 incomplete critical tasks the today
bucket holds the 5 highest-scoring and tomorrow is empty, as claimed — but
the 6th task is NOT dropped: its (negative, hence truthy) time-to-deadline is
below 168 hours, so the thisWeek filter (src/lib/prioritization.ts line 248)
admits it and the thisWeek bucket is exactly [the 6th task]. -/
theorem c9_counterexample :
    (getTaskSchedulingSuggestions sixCritical).todayTasks =
      [critRec "a" 600, critRec "b" 500, critRec "c" 400,
       critRec "d" 300, critRec "e" 200] ∧
    (getTaskSchedulingSuggestions sixCritical).tomorrowTasks = [] ∧
    (getTaskSchedulingSuggestions sixCritical).thisWeekTasks = [critRec "f" 100] := by
  decide

/-- C9 amended: for any six incomplete critical prioritized tasks a…f (input
order = descending score), today is exactly [a,b,c,d,e] (the cap of 5, in
input order), tomorrow is empty (critical is neither high nor medium), and
the sixth task f — provided its time-to-deadline is truthy (≠ 0) and below
168 hours, which holds for any overdue or due-within-2h task except one due
at the exact reference instant — is not dropped but appears alone in the
thisWeek bucket. -/
theorem c9_amended (a b c d e f : PrioritizedTask)
    (hA : a.task.isCompleted = false ∧ a.urgencyLevel = Urgency.critical)
    (hB : b.task.isCompleted = false ∧ b.urgencyLevel = Urgency.critical)
    (hC : c.task.isCompleted = false ∧ c.urgencyLevel = Urgency.critical)
    (hD : d.task.isCompleted = false ∧ d.urgencyLevel = Urgency.critical)
    (hE : e.task.isCompleted = false ∧ e.urgencyLevel = Urgency.critical)
    (hF : f.task.isCompleted = false ∧ f.urgencyLevel = Urgency.critical)
    (hT : ∃ df, f.timeToDeadlineMs = some df ∧ df ≠ 0 ∧ df < 168 * hourMs)
    (hN : f ∉ [a, b, c, d, e]) :
    (getTaskSchedulingSuggestions [a, b, c, d, e, f]).todayTasks = [a, b, c, d, e] ∧
    (getTaskSchedulingSuggestions [a, b, c, d, e, f]).tomorrowTasks = [] ∧
    (getTaskSchedulingSuggestions [a, b, c, d, e, f]).thisWeekTasks = [f] := by
  obtain ⟨df, hdf, hdfne, hdflt⟩ := hT
  have hactive : suggestActive [a, b, c, d, e, f] = [a, b, c, d, e, f] := by
    simp [suggestActive, hA.1, hB.1, hC.1, hD.1, hE.1, hF.1]
  have htoday : suggestToday [a, b, c, d, e, f] = [a, b, c, d, e] := by
    unfold suggestToday
    rw [hactive]
    simp [todayPred, hA.2, hB.2, hC.2, hD.2, hE.2, hF.2, List.take_succ_cons]
  have htomorrow : suggestTomorrow [a, b, c, d, e, f] = [] := by
    unfold suggestTomorrow
    rw [hactive]
    simp [tomorrowPred, hA.2, hB.2, hC.2, hD.2, hE.2, hF.2]
  have hweek : suggestThisWeek [a, b, c, d, e, f] = [f] := by
    unfold suggestThisWeek
    rw [hactive, htoday, htomorrow]
    have hfge : thisWeekPred f = true := by
      simp [thisWeekPred, ttdLt, hdf, hdfne, hdflt]
    simp [List.filter, hfge, hN, List.mem_cons]
  exact ⟨htoday, htomorrow, hweek⟩

/-- C9 witness: the amended statement on six concrete critical records with
distinct ids and descending scores 660…110. -/
theorem c9_amended_witness :
    (getTaskSchedulingSuggestions
        [critRec "p" 660, critRec "q" 550, critRec "r" 440,
         critRec "s" 330, critRec "t" 220, critRec "v" 110]).todayTasks =
      [critRec "p" 660, critRec "q" 550, critRec "r" 440,
       critRec "s" 330, critRec "t" 220] ∧
    (getTaskSchedulingSuggestions
        [critRec "p" 660, critRec "q" 550, critRec "r" 440,
         critRec "s" 330, critRec "t" 220, critRec "v" 110]).tomorrowTasks = [] ∧
    (getTaskSchedulingSuggestions
        [critRec "p" 660, critRec "q" 550, critRec "r" 440,
         critRec "s" 330, critRec "t" 220, critRec "v" 110]).thisWeekTasks =
      [critRec "v" 110] :=
  c9_amended (critRec "p" 660) (critRec "q" 550) (critRec "r" 440)
    (critRec "s" 330) (critRec "t" 220) (critRec "v" 110)
    ⟨rfl, rfl⟩ ⟨rfl, rfl⟩ ⟨rfl, rfl⟩ ⟨rfl, rfl⟩ ⟨rfl, rfl⟩ ⟨rfl, rfl⟩
    ⟨-3600000, rfl, by decide, by decide⟩ (by decide)

end SpeakEasy
